import Mathlib

/-!
Verification development for the prompter CLI's Prompt Assembly Orchestrator.

The definitions below are a shallow embedding of the Go source:
  - Go strings are modelled as Lean `String` (character lists; the programs
    under study only manipulate ASCII text, where Go's byte-wise operations
    and character-wise operations coincide).
  - Go errors are modelled by their `Error()` string (`GoErr`).
  - Filesystem state is an explicit value (`GoFS`) mapping paths to file
    texts and directories to ordered entry listings, mirroring the results
    of `os.ReadFile` / `os.ReadDir` that the code consumes.
  - `fmt.Fprintf(os.Stderr, ...)` warnings and the output-sink writes are
    returned as explicit event lists instead of performed as side effects.
-/

namespace Prompter

/-- Character predicate of Go's `unicode.IsSpace` restricted to the Latin-1
range actually reachable in this code (space, tab, newline, vertical tab,
form feed, carriage return, NEL, NBSP). Used by `strings.TrimSpace`. -/
def isGoSpace (c : Char) : Bool :=
  c = ' ' || c = '\t' || c = '\n' || c = Char.ofNat 11 || c = Char.ofNat 12 ||
  c = '\r' || c = Char.ofNat 0x85 || c = Char.ofNat 0xA0

/-- Go `strings.TrimSpace`: remove leading and trailing whitespace. -/
def goTrimSpace (s : String) : String :=
  ⟨((s.data.dropWhile isGoSpace).reverse.dropWhile isGoSpace).reverse⟩

/-- Membership test of a pattern inside a character list (Go `strings.Contains`
on the underlying text). -/
def containsList (pat : List Char) : List Char → Bool
  | [] => pat.isEmpty
  | c :: t => pat.isPrefixOf (c :: t) || containsList pat t

/-- Go `strings.Contains s sub`. -/
def goContains (s sub : String) : Bool :=
  containsList sub.data s.data

/-- Go `strings.HasSuffix`. -/
def goEndsWith (s suf : String) : Bool :=
  suf.data.reverse.isPrefixOf s.data.reverse

/-- Go `strings.HasPrefix`. -/
def goStarts (s p : String) : Bool :=
  p.data.isPrefixOf s.data

/-- Go `strings.TrimSuffix`: drop `suf` from the end when present. -/
def goTrimSuffix (s suf : String) : String :=
  if goEndsWith s suf then ⟨s.data.take (s.data.length - suf.data.length)⟩ else s

/-- Go `strings.TrimPrefix`: drop `p` from the front when present. -/
def goTrimFront (s p : String) : String :=
  if goStarts s p then ⟨s.data.drop p.data.length⟩ else s

/-- Go `strings.Trim(s, ".")`: remove leading and trailing dots. -/
def goTrimDots (s : String) : String :=
  ⟨((s.data.dropWhile (· = '.')).reverse.dropWhile (· = '.')).reverse⟩

/-- Fuel-bounded worker for `strings.ReplaceAll`; the fuel is the length of
the subject, which bounds the number of scan positions. -/
def replaceAllAux (pat rep : List Char) : Nat → List Char → List Char
  | 0, l => l
  | _ + 1, [] => []
  | fuel + 1, c :: t =>
    if !pat.isEmpty && pat.isPrefixOf (c :: t) then
      rep ++ replaceAllAux pat rep fuel (List.drop (pat.length - 1) t)
    else
      c :: replaceAllAux pat rep fuel t

/-- Go `strings.ReplaceAll` (for the non-empty patterns used here). -/
def goReplaceAll (s pat rep : String) : String :=
  ⟨replaceAllAux pat.data rep.data s.data.length s.data⟩

/-- Go `strings.EqualFold` under the ASCII simple case fold used by the
template names in this repository. -/
def goEqualFold (a b : String) : Bool :=
  a.data.map Char.toLower == b.data.map Char.toLower

/-- Worker for `filepath.Ext`: characters after the last dot, if any dot. -/
def extAux : List Char → Option (List Char)
  | [] => none
  | '.' :: t => some ((extAux t).getD t)
  | _ :: t => extAux t

/-- Go `filepath.Ext` for a path element without separators: the suffix
beginning at the final dot, or empty when there is no dot. -/
def goExt (name : String) : String :=
  match extAux name.data with
  | some t => ⟨'.' :: t⟩
  | none => ""

/-- Go `filepath.Join` restricted to the already-clean segments produced in
this code (no trailing slashes, no dot segments), where it is slash
concatenation. -/
def joinPath (a b : String) : String :=
  a ++ "/" ++ b

/-- Go `strings.Split(s, "\n")` worker over characters. -/
def splitLinesAux : List Char → List Char → List (List Char)
  | [], acc => [acc.reverse]
  | '\n' :: t, acc => acc.reverse :: splitLinesAux t []
  | c :: t, acc => splitLinesAux t (c :: acc)

/-- Go `strings.Split(s, "\n")`. -/
def goSplitLines (s : String) : List String :=
  (splitLinesAux s.data []).map String.mk

/-- Go `filepath.IsAbs` on Unix: the path begins with a slash. -/
def goIsAbs (p : String) : Bool :=
  goStarts p "/"

/-- Go `filepath.Abs` restricted to clean inputs: an absolute path is kept,
a relative one is joined onto the working directory. -/
def goAbs (cwd p : String) : String :=
  if goIsAbs p then p else joinPath cwd p

/-- A `time.Time` instant, represented by its nanosecond reading. -/
abbrev GoTime := Int

/-- Rendering of a `time.Time` value into template output. Go's default
`Time.String()` prints the instant at nanosecond precision, so distinct
instants print distinctly; we therefore represent the printed form by the
decimal reading itself. -/
def goTimeString (t : GoTime) : String :=
  toString t

/-- A Go `error` value, modelled by its `Error()` text. -/
abbrev GoErr := String

/-- The sentinel error categories declared at the top of
`internal/orchestrator/errors.go` (`ErrConfigurationInvalid` ...), plus the
"unknown error" wrapper produced by `RecoverFromError`. -/
inductive ErrKind where
  | configurationInvalid
  | templateNotFound
  | templateInvalid
  | contentCollection
  | fixModeInvalid
  | outputFailed
  | validationFailed
  | unknownError
  deriving DecidableEq

/-- Text of each sentinel error (the `errors.New` strings). -/
def errKindString : ErrKind → String
  | .configurationInvalid => "configuration error"
  | .templateNotFound => "template not found"
  | .templateInvalid => "template error"
  | .contentCollection => "content collection error"
  | .fixModeInvalid => "fix mode error"
  | .outputFailed => "output error"
  | .validationFailed => "validation error"
  | .unknownError => "unknown error"

/-- `PrompterError`: a structured error with a sentinel type, message,
actionable guidance and an optional wrapped cause. -/
structure PErr where
  kind : ErrKind
  message : String
  guidance : String
  cause : Option GoErr
  deriving DecidableEq

/-- The `Error()` method of `PrompterError`. -/
def pErrString (e : PErr) : String :=
  if e.guidance ≠ "" then
    errKindString e.kind ++ ": " ++ e.message ++ "\n\nSuggestion: " ++ e.guidance
  else
    errKindString e.kind ++ ": " ++ e.message

/-- Constructor `NewTemplateError`. Note that the sentinel type is always
`ErrTemplateInvalid`; the cause text is only consulted to pick guidance. -/
def newTemplateError (templateName : String) (cause : GoErr) : PErr :=
  let message := "failed to process template \x27" ++ templateName ++ "\x27"
  let guidance :=
    if goContains cause "not found" then
      "Template \x27" ++ templateName ++ "\x27 not found. Available templates can be listed by checking " ++
        "the prompts/pre/ and prompts/post/ directories. Template names are case-insensitive."
    else if goContains cause "parse" || goContains cause "syntax" then
      "Template \x27" ++ templateName ++ "\x27 has syntax errors. Check for proper \x7b\x7b \x7d\x7d delimiters " ++
        "and valid Go template syntax. Ensure all variables are properly referenced."
    else
      "Ensure the template \x27" ++ templateName ++ ".md\x27 exists in prompts/pre/ or prompts/post/ directory. " ++
        "Check template syntax for valid Go template format with \x7b\x7b \x7d\x7d delimiters."
  { kind := .templateInvalid, message := message, guidance := guidance, cause := some cause }

/-- Constructor `NewFixModeError`. -/
def newFixModeError (fixFile : String) (cause : GoErr) : PErr :=
  let message := "fix mode failed with file \x27" ++ fixFile ++ "\x27"
  let guidance :=
    if goContains cause "not found" || goContains cause "does not exist" then
      "Fix file \x27" ++ fixFile ++ "\x27 does not exist. To use fix mode:\n" ++
        "1. Run your failing command: your-command 2>&1 | tee " ++ fixFile ++ "\n" ++
        "2. Then run: prompter --fix"
    else if goContains cause "empty" then
      "Fix file \x27" ++ fixFile ++ "\x27 is empty. Ensure you captured the command output properly."
    else
      "Ensure the fix file \x27" ++ fixFile ++ "\x27 exists and contains captured command output. " ++
        "Capture output using: command 2>&1 | tee " ++ fixFile
  { kind := .fixModeInvalid, message := message, guidance := guidance, cause := some cause }

/-- Constructor `NewOutputError`. -/
def newOutputError (target : String) (cause : GoErr) : PErr :=
  let message := "failed to output to target \x27" ++ target ++ "\x27"
  let guidance :=
    if target = "clipboard" then
      "Clipboard access failed. Ensure you\x27re running in a graphical environment " ++
        "or try using --target stdout instead."
    else if goStarts target "file:" then
      "Failed to write to file \x27" ++ goTrimFront target "file:" ++ "\x27. Check that the directory exists " ++
        "and you have write permissions."
    else if goContains cause "editor" then
      "Editor launch failed. Check that the specified editor is installed and in PATH. " ++
        "Try setting EDITOR environment variable or using --editor flag."
    else
      "Check that the output target is valid and accessible."
  { kind := .outputFailed, message := message, guidance := guidance, cause := some cause }

/-- Constructor `NewValidationError` (the `value` argument is the printed
form of the offending value). -/
def newValidationError (field value reason : String) : PErr :=
  let message := "validation failed for " ++ field ++ ": " ++ value ++ " (" ++ reason ++ ")"
  let guidance :=
    if field = "base_prompt" then
      "Base prompt is required in non-interactive mode. Provide a prompt as argument " ++
        "or remove --yes flag to use interactive mode."
    else if field = "target" then
      "Target must be \x27clipboard\x27, \x27stdout\x27, or \x27file:/path/to/file\x27. " ++
        "Example: --target file:/tmp/prompt.txt"
    else if field = "config_path" then
      "Configuration file path must be valid and accessible. " ++
        "Ensure the file exists and you have read permissions."
    else if field = "template_name" then
      "Template name must not be empty and should correspond to a .md file " ++
        "in prompts/pre/ or prompts/post/ directory."
    else
      "Check the input value and ensure it meets the required format."
  { kind := .validationFailed, message := message, guidance := guidance, cause := none }

/-- `IsRecoverableError` restricted to `PrompterError` values (every call
site in the orchestrator passes one): only `ErrTemplateNotFound`, and
`ErrOutputFailed` whose message mentions the clipboard, are recoverable. -/
def isRecoverableError (e : PErr) : Bool :=
  match e.kind with
  | .templateNotFound => true
  | .outputFailed => goContains e.message "clipboard"
  | _ => false

/-- `RecoverFromError` on a `PrompterError` value. The configuration branch
additionally attempts to create the default config directory; that
filesystem side effect only augments the guidance text and leaves kind,
message and cause unchanged, which is all the theorems below depend on. -/
def recoverFromError (e : PErr) : PErr :=
  match e.kind with
  | .configurationInvalid => e
  | .templateNotFound =>
    if goContains e.message "not found" then
      { e with guidance := e.guidance ++
          "\n\nYou can continue without this template by omitting the --pre or --post flag." }
    else e
  | .outputFailed =>
    if goContains e.message "clipboard" then
      { e with guidance := e.guidance ++ "\n\nTry using --target stdout as a fallback." }
    else e
  | _ => e

/-- Parsed `text/template` body: literal text, the `.Prompt`, `.Now` and
`.CWD` fields, concatenation of parts, and — because
`registerHelpersToTemplate` merges `sprig.TxtFuncMap()` into every template
— invocation of a registered helper whose result draws on per-call process
state (sprig's `uuidv4`, `randAlphaNum`, `randNumeric`, `now`, ...),
identified by its helper name. Registered helpers whose results are pure
functions of their rendered arguments (`truncate`, `mdFence`, `indent`,
`dedent` and sprig's deterministic text helpers) compute fixed strings from
the same context and therefore cannot introduce per-call variation; no
claim distinguishes such an application from the literal it denotes, so
they carry no dedicated constructor. -/
inductive Tmpl where
  | lit (s : String)
  | promptField
  | nowField
  | cwdField
  | seq (a b : Tmpl)
  | sprigRand (helperName : String)
  deriving DecidableEq

/-- Git snapshot placed in the render context (`interfaces.GitInfo`). -/
structure GitInfo where
  root : String := ""
  branch : String := ""
  commit : String := ""
  dirty : Bool := false
  deriving DecidableEq

/-- Fix-mode record placed in the render context (`interfaces.FixInfo`). -/
structure FixInfo where
  enabled : Bool := false
  raw : String := ""
  command : String := ""
  output : String := ""
  deriving DecidableEq

/-- The render context (`interfaces.TemplateData`). The `files` list is
omitted: the orchestrator always passes the empty list (source comment "No
longer used"). All config snapshot values are strings. -/
structure TemplateData where
  prompt : String
  now : GoTime
  cwd : String
  git : GitInfo
  config : List (String × String)
  env : List (String × String)
  fix : FixInfo
  deriving DecidableEq

/-- Execution of a parsed template body against the render context.
`hout` records, for this render call, the text produced by each per-call
varying registered helper (the strings sprig's `uuidv4`, `randAlphaNum`,
`now`, ... return during this call); it is per-call ambient state of the
process, not part of the render context the orchestrator builds. -/
def execTmpl (hout : String → String) : Tmpl → TemplateData → String
  | .lit s, _ => s
  | .promptField, d => d.prompt
  | .nowField, d => goTimeString d.now
  | .cwdField, d => d.cwd
  | .seq a b, d => execTmpl hout a d ++ execTmpl hout b d
  | .sprigRand name, _ => hout name

/-- `Processor.Execute`: template execution, wrapping failures. Execution of
the modelled fragment cannot fail, so this always succeeds. -/
def goExecute (hout : String → String) (t : Tmpl) (d : TemplateData) : Except GoErr String :=
  .ok (execTmpl hout t d)

/-- One result of `os.ReadDir`: an entry name plus its directory flag. -/
structure DirEntry where
  name : String
  isDir : Bool
  deriving DecidableEq

deriving instance DecidableEq for Except

/-- A file's text together with the result of `text/template` parsing of
that text. Parsing itself (Go's template parser) is outside the embedding,
so each file carries the parse result of its own contents. -/
structure TmplText where
  raw : String
  parsed : Except GoErr Tmpl
  deriving DecidableEq

/-- Filesystem snapshot: path → file text, and directory path → ordered
entry listing (the enumeration order `os.ReadDir` would return). -/
structure GoFS where
  files : List (String × TmplText)
  dirs : List (String × List DirEntry)
  deriving DecidableEq

/-- `os.ReadFile`: the file's text, or `none` when the path cannot be read. -/
def readFile (fs : GoFS) (p : String) : Option String :=
  (fs.files.lookup p).map TmplText.raw

/-- `os.ReadDir`: the ordered entries, or `none` when the directory is
absent or unreadable (both cases make `discoverTemplate` skip the
directory, so they are not distinguished). -/
def readDir (fs : GoFS) (d : String) : Option (List DirEntry) :=
  fs.dirs.lookup d

/-- Inner loop of `discoverTemplate` over one directory listing: the first
non-directory entry whose stem (name minus `filepath.Ext`) equals the
requested name case-insensitively. -/
def findInDir (entries : List DirEntry) (name : String) : Option String :=
  (entries.find? fun e =>
    !e.isDir && goEqualFold (goTrimSuffix e.name (goExt e.name)) name).map DirEntry.name

/-- One directory step of `discoverTemplate`: resolve `name` inside `dir`,
or `none` when the directory is unreadable or holds no match. -/
def discoverInDir (fs : GoFS) (dir name : String) : Option String :=
  (readDir fs dir).bind fun es => (findInDir es name).map (joinPath dir)

/-- `Processor.discoverTemplate`: scan `<root>/pre` then `<root>/post`, in
that order, for a file whose stem matches `name` case-insensitively; the
first match wins. No `.default` marker stripping happens here. -/
def discoverTemplate (fs : GoFS) (promptsLocation name : String) : Except GoErr String :=
  match discoverInDir fs (joinPath promptsLocation "pre") name with
  | some p => .ok p
  | none =>
    match discoverInDir fs (joinPath promptsLocation "post") name with
    | some p => .ok p
    | none => .error ("template not found: " ++ name)

/-- `Processor.loadTemplateFromPath`: read the file and parse it. -/
def loadTemplateFromPath (fs : GoFS) (path : String) : Except GoErr Tmpl :=
  match fs.files.lookup path with
  | none =>
    .error ("failed to read template file " ++ path ++ ": open " ++ path ++
      ": no such file or directory")
  | some tt =>
    match tt.parsed with
    | .error e => .error ("failed to parse template " ++ path ++ ": " ++ e)
    | .ok t => .ok t

/-- `Processor.LoadTemplate`: an absolute path or a path containing a
separator is loaded directly; a bare name goes through discovery. -/
def loadTemplate (fs : GoFS) (promptsLocation nameOrPath : String) : Except GoErr Tmpl :=
  if goIsAbs nameOrPath || goContains nameOrPath "/" then
    loadTemplateFromPath fs nameOrPath
  else
    match discoverTemplate fs promptsLocation nameOrPath with
    | .error e => .error e
    | .ok p => loadTemplateFromPath fs p

/-- Per-entry classification step of `interactive.findTemplates`: an `.md`
file is either a default template (marker stripped for display) or a
regular one. -/
def classifyEntry (e : DirEntry) (acc : List String × List String) : List String × List String :=
  if !e.isDir && goEndsWith e.name ".md" then
    let nm := goTrimSuffix e.name ".md"
    if goContains nm ".default." then
      (acc.1 ++ [goTrimDots (goReplaceAll nm ".default." ".")], acc.2)
    else if goEndsWith nm ".default" then
      (acc.1 ++ [goTrimSuffix nm ".default"], acc.2)
    else
      (acc.1, acc.2 ++ [nm])
  else acc

/-- `interactive.findTemplates`: list the display names offered by the
selection UI for `<root>/<subdir>`, default-marked templates first (their
marker stripped), then regular templates. A missing directory yields the
empty list. -/
def findTemplates (fs : GoFS) (promptsLocation subdir : String) : List String :=
  match readDir fs (joinPath promptsLocation subdir) with
  | none => []
  | some entries =>
    let acc := entries.foldl (fun a e => classifyEntry e a) ([], [])
    acc.1 ++ acc.2

/-- `models.PromptRequest` as consumed by the orchestrator. -/
structure PromptRequest where
  basePrompt : String := ""
  preTemplate : String := ""
  postTemplate : String := ""
  files : List String := []
  directory : String := ""
  fixMode : Bool := false
  fixFile : String := ""
  target : String := ""
  editor : String := ""
  editorRequested : Bool := false
  interactive : Bool := false
  forceInteractive : Bool := false
  forceNonInteractive : Bool := false
  numberSelect : Bool := false
  fromClipboard : Bool := false
  configPath : String := ""
  deriving DecidableEq

/-- `interfaces.Config`: the resolved configuration. -/
structure Config where
  promptsLocation : String := ""
  localPromptsLocation : String := ""
  editor : String := ""
  defaultPre : String := ""
  defaultPost : String := ""
  fixFile : String := ""
  directoryStrategy : String := ""
  target : String := ""
  interactiveDefault : Bool := false
  deriving DecidableEq

/-- `config.expandPath`: expand a leading `~/` to the user's home directory
(`home = none` models `os.UserHomeDir` failing, in which case the path is
returned unchanged). `filepath.Join` on the clean components used here is
slash concatenation. -/
def expandPath (home : Option String) (path : String) : String :=
  if goStarts path "~/" then
    match home with
    | none => path
    | some h => h ++ "/" ++ String.mk (path.data.drop 2)
  else path

/-- The viper store backing `config.Manager`: built-in defaults, values read
from the config file, and process environment overrides. An entry
`(k, v)` of `envVals` models the environment variable `PROMPTER_<K>` (the
fixed prefix plus the uppercased key, `.` mapped to `_`). -/
structure ViperState where
  defaults : List (String × String)
  fileVals : List (String × String)
  envVals : List (String × String)
  deriving DecidableEq

/-- `config.Manager`: the viper store plus the flag values recorded through
`SetFlag` (restricted to the string values cobra actually passes). -/
structure Manager where
  v : ViperState
  flags : List (String × String)
  deriving DecidableEq

/-- The `setDefaults` table. -/
def stdDefaults : List (String × String) :=
  [("prompts_location", "~/.config/prompter"),
   ("editor", "nvim"),
   ("default_pre", ""),
   ("default_post", ""),
   ("fix_file", "/tmp/prompter-fix.txt"),
   ("directory_strategy", "git"),
   ("target", "clipboard")]

/-- Config-file / defaults fallback of a viper `GetString`. -/
def getStringCF (st : ViperState) (k : String) : String :=
  match st.fileVals.lookup k with
  | some s => s
  | none => (st.defaults.lookup k).getD ""

/-- Viper `GetString` with `AutomaticEnv`: environment beats the file beats
the defaults (an empty environment value counts as unset, viper's
`AllowEmptyEnv=false` behaviour). -/
def getString (st : ViperState) (k : String) : String :=
  match st.envVals.lookup k with
  | some s => if s ≠ "" then s else getStringCF st k
  | none => getStringCF st k

/-- `Manager.getConfigFromViper`: env > config file > defaults per key, with
`~` expansion on the two path-valued keys. -/
def getConfigFromViper (home : Option String) (st : ViperState) : Config :=
  { promptsLocation := expandPath home (getString st "prompts_location"),
    editor := getString st "editor",
    defaultPre := getString st "default_pre",
    defaultPost := getString st "default_post",
    fixFile := expandPath home (getString st "fix_file"),
    directoryStrategy := getString st "directory_strategy",
    target := getString st "target" }

/-- One block of `applyFlagOverrides` for a plain string key: a present,
non-empty flag value replaces the current value. -/
def flagStr (flags : List (String × String)) (k cur : String) : String :=
  match flags.lookup k with
  | some s => if s ≠ "" then s else cur
  | none => cur

/-- One block of `applyFlagOverrides` for a path-valued key
(`prompts_location`, `fix_file`): the flag value is `~`-expanded. -/
def flagPath (home : Option String) (flags : List (String × String)) (k cur : String) : String :=
  match flags.lookup k with
  | some s => if s ≠ "" then expandPath home s else cur
  | none => cur

/-- `Manager.applyFlagOverrides`: each of the seven keys is overridden by
its flag value when one was set and non-empty. -/
def applyFlagOverrides (home : Option String) (flags : List (String × String)) (c : Config) : Config :=
  { c with
    promptsLocation := flagPath home flags "prompts_location" c.promptsLocation,
    editor := flagStr flags "editor" c.editor,
    defaultPre := flagStr flags "default_pre" c.defaultPre,
    defaultPost := flagStr flags "default_post" c.defaultPost,
    fixFile := flagPath home flags "fix_file" c.fixFile,
    directoryStrategy := flagStr flags "directory_strategy" c.directoryStrategy,
    target := flagStr flags "target" c.target }

/-- `Manager.Resolve`: viper resolution (env > file > defaults) followed by
flag overrides; the Go function always returns a nil error. -/
def resolve (home : Option String) (m : Manager) : Config :=
  applyFlagOverrides home m.flags (getConfigFromViper home m.v)

/-- Construct a `Manager` holding the standard defaults together with the
given config-file values, environment values and flags. -/
def mkManager (file env flags : List (String × String)) : Manager :=
  { v := { defaults := stdDefaults, fileVals := file, envVals := env }, flags := flags }

/-- The seven configuration keys managed by `setDefaults` and
`applyFlagOverrides`. -/
def configKeys : List String :=
  ["prompts_location", "editor", "default_pre", "default_post",
   "fix_file", "directory_strategy", "target"]

/-- Projection of a resolved `Config` at a key name. -/
def configField (c : Config) (k : String) : String :=
  if k = "prompts_location" then c.promptsLocation
  else if k = "editor" then c.editor
  else if k = "default_pre" then c.defaultPre
  else if k = "default_post" then c.defaultPost
  else if k = "fix_file" then c.fixFile
  else if k = "directory_strategy" then c.directoryStrategy
  else if k = "target" then c.target
  else ""

/-- The value the resolver stores for key `k` when the selected source
supplies `v`: path-valued keys are `~`-expanded, the rest are verbatim. -/
def keyTransform (home : Option String) (k v : String) : String :=
  if k = "prompts_location" ∨ k = "fix_file" then expandPath home v else v

/-- `Orchestrator.buildGitInfo`: when `os.Stat(".git")` succeeds (a `.git`
entry exists in the working directory), record the working directory as the
root with the placeholder branch/commit values; otherwise an empty record. -/
def buildGitInfo (fs : GoFS) (cwd : String) : GitInfo :=
  if (fs.dirs.lookup (joinPath cwd ".git")).isSome then
    { root := cwd, branch := "main", commit := "unknown", dirty := false }
  else
    {}

/-- Outcome of the collaborator interactions used by fix mode without an
explicit fix file: the last shell-history command (`getLastCommand`), the
user's confirmation (`selectYesNo`), and the `sh -c` subprocess run giving
combined output plus the exit error. -/
structure RerunOutcome where
  lastCommand : Except GoErr String
  confirm : Except GoErr Bool
  run : String → String × Option GoErr

/-- `executeAndCaptureCommand`: format the command and its combined output,
trimmed. The subprocess exit error (`cmd.CombinedOutput()`'s second result)
is discarded by the source (`output, _ :=`), so it never causes a failure. -/
def executeAndCaptureCommand (command combinedOutput : String)
    (execErr : Option GoErr) : Except GoErr String :=
  .ok (goTrimSpace ("$ " ++ command ++ "\n\n" ++ combinedOutput))

/-- `rerunLastCommand` (non-interactive): look up the last command and
capture its re-execution. -/
def rerunLastCommand (r : RerunOutcome) : Except GoErr String :=
  match r.lastCommand with
  | .error e => .error ("failed to get last command: " ++ e)
  | .ok cmd =>
    let (out, e) := r.run cmd
    executeAndCaptureCommand cmd out e

/-- `promptAndRerunLastCommand` (interactive): as above, but ask for
confirmation first. -/
def promptAndRerunLastCommand (r : RerunOutcome) (numberSelect : Bool) : Except GoErr String :=
  match r.lastCommand with
  | .error e => .error ("failed to get last command: " ++ e)
  | .ok cmd =>
    match r.confirm with
    | .error e => .error ("failed to get user confirmation: " ++ e)
    | .ok false => .error "user declined to re-run command"
    | .ok true =>
      let (out, e) := r.run cmd
      executeAndCaptureCommand cmd out e

/-- `loadFixContent`: an explicit fix file is read and trimmed (empty
content is an error); otherwise the last command is re-run, with or without
confirmation depending on interactivity. -/
def loadFixContent (fs : GoFS) (r : RerunOutcome) (fixFile : String)
    (interactive numberSelect : Bool) : Except GoErr String :=
  if fixFile ≠ "" then
    match readFile fs fixFile with
    | none => .error ("open " ++ fixFile ++ ": no such file or directory")
    | some content =>
      let trimmed := goTrimSpace content
      if trimmed = "" then .error "fix file is empty" else .ok trimmed
  else if interactive then
    promptAndRerunLastCommand r numberSelect
  else
    rerunLastCommand r

/-- `loadFixPrompt`: read and trim `<root>/fix.md`. -/
def loadFixPrompt (fs : GoFS) (promptsLocation : String) : Except GoErr String :=
  let fixPath := joinPath promptsLocation "fix.md"
  match readFile fs fixPath with
  | none =>
    .error ("fix.md not found at " ++ fixPath ++ ": open " ++ fixPath ++
      ": no such file or directory")
  | some c => .ok (goTrimSpace c)

/-- `generateFixModePrompt`: capture fix content, then join the `fix.md`
opener (or the literal fallback "Please fix") with the captured content
using a blank-line separator. The positional base prompt is never read. -/
def generateFixModePrompt (fs : GoFS) (r : RerunOutcome)
    (request : PromptRequest) (cfg : Config) : Except PErr String :=
  match loadFixContent fs r request.fixFile request.interactive request.numberSelect with
  | .error e => .error (recoverFromError (newFixModeError request.fixFile e))
  | .ok fixContent =>
    let fixPrompt :=
      match loadFixPrompt fs cfg.promptsLocation with
      | .error _ => "Please fix"
      | .ok p => p
    .ok (String.intercalate "\n\n" [fixPrompt, fixContent])

/-- `buildTemplateData`: assemble the render context from the request, the
resolved config, the process environment, the working directory and the
current clock reading (the Go source never returns an error here). -/
def buildTemplateData (fs : GoFS) (r : RerunOutcome) (env : List (String × String))
    (cwd : String) (now : GoTime) (request : PromptRequest) (cfg : Config) : TemplateData :=
  let configMap :=
    [("prompts_location", cfg.promptsLocation),
     ("editor", cfg.editor),
     ("default_pre", cfg.defaultPre),
     ("default_post", cfg.defaultPost),
     ("fix_file", cfg.fixFile),
     ("directory_strategy", cfg.directoryStrategy),
     ("target", cfg.target)]
  let gitInfo := buildGitInfo fs cwd
  let fixInfo : FixInfo :=
    if request.fixMode && request.fixFile ≠ "" then
      match loadFixContent fs r request.fixFile request.interactive request.numberSelect with
      | .ok content =>
        let lines := goSplitLines content
        { enabled := request.fixMode,
          raw := content,
          command := (lines.headD ""),
          output := if lines.length > 1 then String.intercalate "\n" lines.tail else "" }
      | .error _ => { enabled := request.fixMode }
    else
      { enabled := request.fixMode }
  { prompt := request.basePrompt, now := now, cwd := cwd, git := gitInfo,
    config := configMap, env := env, fix := fixInfo }

/-- `processTemplate`: discover and load the named template through the
processor, build the render context and execute. The `templateType`
argument is accepted but never consulted, exactly as in the source. -/
def processTemplate (fs : GoFS) (r : RerunOutcome) (env : List (String × String))
    (cwd : String) (now : GoTime) (hout : String → String) (templateName : String)
    (request : PromptRequest) (cfg : Config) (templateType : String) : Except GoErr String :=
  match loadTemplate fs cfg.promptsLocation templateName with
  | .error e => .error ("failed to load template " ++ templateName ++ ": " ++ e)
  | .ok tmpl =>
    let data := buildTemplateData fs r env cwd now request cfg
    match goExecute hout tmpl data with
    | .error e => .error ("failed to execute template " ++ templateName ++ ": " ++ e)
    | .ok result => .ok result

/-- `formatContent`: the reference block listing file paths and/or the
resolved absolute directory (`"."` resolves to the working directory; the
`os.Getwd` / `filepath.Abs` failure fallbacks are unreachable in this
model, where both always succeed). -/
def formatContent (cwd : String) (request : PromptRequest) : String :=
  let fileParts :=
    if request.files ≠ [] then "Referencing files:" :: request.files else []
  let dirParts :=
    if request.directory ≠ "" then
      ["Referencing dir:",
       if request.directory = "." then cwd else goAbs cwd request.directory]
    else []
  String.intercalate "\n" (fileParts ++ dirParts)

/-- One pre/post block of `generateNormalPrompt`: process the named
template; on failure, wrap with `NewTemplateError` and either warn and
contribute nothing (when `IsRecoverableError` holds) or fail; on success
contribute the rendered text when non-empty. Returns (warnings, parts). -/
def templatePart (fs : GoFS) (r : RerunOutcome) (env : List (String × String))
    (cwd : String) (now : GoTime) (hout : String → String) (name : String)
    (request : PromptRequest)
    (cfg : Config) (templateType : String) : Except PErr (List String × List String) :=
  if name = "" then .ok ([], [])
  else
    match processTemplate fs r env cwd now hout name request cfg templateType with
    | .error e =>
      let templateErr := newTemplateError name e
      if isRecoverableError templateErr then
        .ok (["Warning: " ++ pErrString templateErr], [])
      else
        .error (recoverFromError templateErr)
    | .ok c => .ok ([], if c ≠ "" then [c] else [])

/-- `generateNormalPrompt`: pre-template part, base prompt, reference block,
post-template part, joined with blank-line separators; the result carries
the stderr warnings emitted along the way. -/
def generateNormalPrompt (fs : GoFS) (r : RerunOutcome) (env : List (String × String))
    (cwd : String) (now : GoTime) (hout : String → String)
    (request : PromptRequest) (cfg : Config) :
    Except PErr (List String × String) :=
  match templatePart fs r env cwd now hout request.preTemplate request cfg "pre" with
  | .error e => .error e
  | .ok (w1, p1) =>
    let p2 := if request.basePrompt ≠ "" then [request.basePrompt] else []
    let p3 :=
      if request.files ≠ [] || request.directory ≠ "" then
        let contentPart := formatContent cwd request
        if contentPart ≠ "" then [contentPart] else []
      else []
    match templatePart fs r env cwd now hout request.postTemplate request cfg "post" with
    | .error e => .error e
    | .ok (w4, p4) =>
      .ok (w1 ++ w4, String.intercalate "\n\n" (p1 ++ p2 ++ p3 ++ p4))

/-- `template.truncateFunc`: keep short text unchanged; hard-cut when the
requested length is at most 3; otherwise cut and append a 3-character
ellipsis. A negative length makes the Go slice expression `text[:length]`
panic with a bounds error, modelled as an error result. -/
def truncateFunc (length : Int) (text : String) : Except GoErr String :=
  if (text.length : Int) ≤ length then .ok text
  else if length ≤ 3 then
    if 0 ≤ length then .ok ⟨text.data.take length.toNat⟩
    else .error "runtime error: slice bounds out of range"
  else .ok (⟨text.data.take (length - 3).toNat⟩ ++ "...")

/-- Presence test of `os.Stat` against the filesystem snapshot. -/
def statPath (fs : GoFS) (p : String) : Bool :=
  (fs.files.lookup p).isSome || (fs.dirs.lookup p).isSome

/-- `Orchestrator.validateRequest` (the `nil`-request guard has no
counterpart for a Lean value): `none` means the request is valid. -/
def validateRequest (fs : GoFS) (request : PromptRequest) : Option PErr :=
  if !request.interactive && request.basePrompt = "" && !request.fixMode
      && !request.fromClipboard then
    some (newValidationError "base_prompt" "" "required in noninteractive mode")
  else if request.target ≠ "" &&
      !(request.target = "clipboard" || request.target = "stdout"
        || goStarts request.target "file:") then
    some (newValidationError "target" request.target
      "must be \x27clipboard\x27, \x27stdout\x27, or \x27file:/path\x27")
  else if request.configPath ≠ "" && !statPath fs request.configPath then
    some (newValidationError "config_path" request.configPath "file does not exist")
  else if request.preTemplate ≠ "" && goTrimSpace request.preTemplate = "" then
    some (newValidationError "template_name" request.preTemplate
      "pre-template name cannot be empty")
  else if request.postTemplate ≠ "" && goTrimSpace request.postTemplate = "" then
    some (newValidationError "template_name" request.postTemplate
      "post-template name cannot be empty")
  else
    none

/-- `resolveEditor`: flag > `VISUAL` > `EDITOR` > configured editor > first
present binary of the fallback list > `vi`. -/
def resolveEditor (env : List (String × String)) (binExists : String → Bool)
    (requestEditor configEditor : String) : String :=
  if requestEditor ≠ "" then requestEditor
  else if (env.lookup "VISUAL").getD "" ≠ "" then (env.lookup "VISUAL").getD ""
  else if (env.lookup "EDITOR").getD "" ≠ "" then (env.lookup "EDITOR").getD ""
  else if configEditor ≠ "" then configEditor
  else if binExists "nvim" then "nvim"
  else if binExists "vim" then "vim"
  else if binExists "vi" then "vi"
  else if binExists "nano" then "nano"
  else "vi"

/-- Results of the four `OutputHandler` collaborator calls (the clipboard
binding, stdout, the file write, the editor spawn are external
collaborators; each call's outcome is a captured result). -/
structure OutputHandlerM where
  clipboardResult : Except GoErr Unit
  stdoutResult : Except GoErr Unit
  fileResult : Except GoErr Unit
  editorResult : Except GoErr Unit
  deriving DecidableEq

/-- Observable actions performed by `OutputPrompt`: stderr warnings, sink
writes, informational prints, and editor launches. -/
inductive OutEvent where
  | warn (msg : String)
  | stdout (s : String)
  | clipboard (s : String)
  | fileWrite (path s : String)
  | editorOpen (editorName s : String)
  | infoMsg (s : String)
  deriving DecidableEq

/-- Failure of `OutputPrompt`: either a `PrompterError`, or the raw error
returned directly from the stdout fallback write. -/
inductive OutFail where
  | perr (e : PErr)
  | raw (e : GoErr)
  deriving DecidableEq

/-- Editor tail of `OutputPrompt`: when an editor was explicitly requested,
resolve it and spawn it on the prompt; launch failure is fatal. -/
def editorStep (h : OutputHandlerM) (env : List (String × String))
    (binExists : String → Bool) (prompt : String) (request : PromptRequest)
    (cfg : Config) (events : List OutEvent) : Except OutFail (List OutEvent) :=
  if request.editorRequested then
    let ed := resolveEditor env binExists request.editor cfg.editor
    match h.editorResult with
    | .error err => .error (.perr (recoverFromError (newOutputError "editor" err)))
    | .ok _ => .ok (events ++ [.editorOpen ed prompt])
  else .ok events

/-- `Orchestrator.OutputPrompt`: resolve the target (request > config >
`"stdout"`), dispatch to the sink, degrade a failed clipboard write to a
warning plus a stdout write, treat stdout/file failures as fatal, reject
any other target, then honour an explicit editor request. -/
def outputPrompt (h : OutputHandlerM) (env : List (String × String))
    (binExists : String → Bool) (prompt : String) (request : PromptRequest)
    (cfg : Config) : Except OutFail (List OutEvent) :=
  let target0 := if request.target = "" then cfg.target else request.target
  let target := if target0 = "" then "stdout" else target0
  if target = "clipboard" then
    match h.clipboardResult with
    | .error err =>
      let outputErr := newOutputError target err
      if isRecoverableError outputErr then
        match h.stdoutResult with
        | .ok _ =>
          .ok [.warn ("Warning: " ++ pErrString outputErr ++ "\nFalling back to stdout:\n\n"),
               .stdout prompt]
        | .error e2 => .error (.raw e2)
      else .error (.perr (recoverFromError outputErr))
    | .ok _ =>
      editorStep h env binExists prompt request cfg
        [.clipboard prompt, .infoMsg "Prompt copied to clipboard"]
  else if target = "stdout" then
    match h.stdoutResult with
    | .error err => .error (.perr (recoverFromError (newOutputError target err)))
    | .ok _ => editorStep h env binExists prompt request cfg [.stdout prompt]
  else if goStarts target "file:" then
    let filePath := goTrimFront target "file:"
    match h.fileResult with
    | .error err => .error (.perr (recoverFromError (newOutputError target err)))
    | .ok _ =>
      editorStep h env binExists prompt request cfg
        [.fileWrite filePath prompt, .infoMsg ("Prompt written to " ++ filePath)]
  else
    .error (.perr (recoverFromError (newValidationError "target" target
      "unsupported output target")))

/-- Does a template body reference the `.Now` timestamp field? -/
def mentionsNow : Tmpl → Bool
  | .lit _ => false
  | .promptField => false
  | .nowField => true
  | .cwdField => false
  | .seq a b => mentionsNow a || mentionsNow b
  | .sprigRand _ => false

/-- Does a template body invoke a per-call varying registered helper
(sprig's `uuidv4`, `randAlphaNum`, `now`, ...)? -/
def usesPerCallHelper : Tmpl → Bool
  | .lit _ => false
  | .promptField => false
  | .nowField => false
  | .cwdField => false
  | .seq a b => usesPerCallHelper a || usesPerCallHelper b
  | .sprigRand _ => true

/-- A stored file is free of per-call inputs when its parsed body (if it
parses) neither references the `.Now` field nor invokes a per-call varying
registered helper. -/
def ttPerCallFree (tt : TmplText) : Bool :=
  match tt.parsed with
  | .ok t => !mentionsNow t && !usesPerCallHelper t
  | .error _ => true

/-- A `RerunOutcome` for runs that never touch shell history: no command is
found, nothing is confirmed, every run produces no output. -/
def rerunNone : RerunOutcome :=
  { lastCommand := .error "no shell history found",
    confirm := .ok false,
    run := fun _ => ("", none) }

/-- Filesystem fixture with a single default-marked pre-template
`pre/name.default.md` and a second `pre/foo.default.bar.md`. -/
def fsDefaultMarked : GoFS :=
  { files :=
      [("/p/pre/name.default.md", { raw := "T1", parsed := .ok (.lit "T1") }),
       ("/p/pre/foo.default.bar.md", { raw := "T2", parsed := .ok (.lit "T2") })],
    dirs :=
      [("/p/pre",
        [{ name := "name.default.md", isDir := false },
         { name := "foo.default.bar.md", isDir := false }])] }

/-- Filesystem fixture whose only pre-template renders the timestamp. -/
def fsNowTemplate : GoFS :=
  { files := [("/p/pre/t.md", { raw := "now-field", parsed := .ok .nowField })],
    dirs := [("/p/pre", [{ name := "t.md", isDir := false }])] }

/-- Filesystem fixture whose only pre-template invokes sprig's `uuidv4`
helper. -/
def fsUuidTemplate : GoFS :=
  { files := [("/p/pre/u.md", { raw := "uuid-helper", parsed := .ok (.sprigRand "uuidv4") })],
    dirs := [("/p/pre", [{ name := "u.md", isDir := false }])] }

/-- Request fixture naming the `u` pre-template. -/
def reqPreU : PromptRequest :=
  { basePrompt := "b", preTemplate := "u" }

/-- Filesystem fixture whose only pre-template is a clock-free literal. -/
def fsLitTemplate : GoFS :=
  { files := [("/p/pre/t.md", { raw := "PRE", parsed := .ok (.lit "PRE") })],
    dirs := [("/p/pre", [{ name := "t.md", isDir := false }])] }

/-- Filesystem fixture with a template name present in both `pre/` and
`post/`, carrying different contents. -/
def fsBothKinds : GoFS :=
  { files :=
      [("/p/pre/foo.md", { raw := "PRE", parsed := .ok (.lit "PRE") }),
       ("/p/post/foo.md", { raw := "POST", parsed := .ok (.lit "POST") })],
    dirs :=
      [("/p/pre", [{ name := "foo.md", isDir := false }]),
       ("/p/post", [{ name := "foo.md", isDir := false }])] }

/-- Filesystem fixture holding a captured fix file and no `fix.md`. -/
def fsFixCapture : GoFS :=
  { files := [("/tmp/fix.txt",
      { raw := "$ go test ./...\n\nFAIL\n", parsed := .error "plain text" })],
    dirs := [] }

/-- Request fixture naming the `t` pre-template. -/
def reqPreT : PromptRequest :=
  { basePrompt := "b", preTemplate := "t" }

/-- Config fixture rooted at `/p`. -/
def cfgRootP : Config :=
  { promptsLocation := "/p", directoryStrategy := "git", target := "stdout" }

/-- C6: fix-mode capture succeeds regardless of the subprocess exit status:
the exit error is discarded, the result is the trimmed
`"$ <command>\n\n<combined output>"` text, and the non-interactive re-run
path propagates exactly that value. -/
theorem c6_capture_ignores_exit_status :
    (∀ (cmd out : String) (e : Option GoErr),
      executeAndCaptureCommand cmd out e =
        .ok (goTrimSpace ("$ " ++ cmd ++ "\n\n" ++ out))) ∧
    (∀ (cmd out : String) (e1 e2 : Option GoErr),
      executeAndCaptureCommand cmd out e1 = executeAndCaptureCommand cmd out e2) ∧
    (∀ (r : RerunOutcome) (cmd out : String) (e : Option GoErr),
      r.lastCommand = .ok cmd → r.run cmd = (out, e) →
      rerunLastCommand r = .ok (goTrimSpace ("$ " ++ cmd ++ "\n\n" ++ out))) := by
  refine ⟨fun _ _ _ => rfl, fun _ _ _ _ => rfl, fun r cmd out e h1 h2 => ?_⟩
  simp [rerunLastCommand, h1, h2, executeAndCaptureCommand]

/-- C6 witness: re-running `go test ./...` whose subprocess exits non-zero
still captures successfully. -/
theorem c6_witness :
    rerunLastCommand
      { lastCommand := .ok "go test ./...", confirm := .ok true,
        run := fun _ => ("FAIL\n", some "exit status 1") } =
      .ok "$ go test ./...\n\nFAIL" := by
  have h := c6_capture_ignores_exit_status.2.2
    { lastCommand := .ok "go test ./...", confirm := .ok true,
      run := fun _ => ("FAIL\n", some "exit status 1") }
    "go test ./..." "FAIL\n" (some "exit status 1") rfl rfl
  exact h.trans (by decide)

/-- C8 counterexample: with a negative requested length and a longer text,
truncation occurs and the length is at most 3, yet the helper does not
return a hard-cut prefix — the Go slice `text[:-1]` panics. -/
theorem c8_truncate_negative_length_panics :
    truncateFunc (-1) "x" = .error "runtime error: slice bounds out of range" := by
  decide

/-- C8 amended: short text is returned unchanged; with truncation and
length > 3 the result is a prefix of the text completed by the 3-character
ellipsis, of exactly the requested length; with truncation and
0 ≤ length ≤ 3 the result is the hard-cut prefix; and
truncate(10, "This is a very long string") = "This is...". -/
theorem c8_truncate_spec :
    (∀ (n : Int) (text : String), (text.length : Int) ≤ n →
      truncateFunc n text = .ok text) ∧
    (∀ (n : Int) (text : String), n < (text.length : Int) → 3 < n →
      truncateFunc n text = .ok (⟨text.data.take (n - 3).toNat⟩ ++ "...") ∧
      ((⟨text.data.take (n - 3).toNat⟩ ++ "..." : String)).length = n.toNat ∧
      goEndsWith (⟨text.data.take (n - 3).toNat⟩ ++ "...") "..." = true) ∧
    (∀ (n : Int) (text : String), n < (text.length : Int) → 0 ≤ n → n ≤ 3 →
      truncateFunc n text = .ok ⟨text.data.take n.toNat⟩) ∧
    truncateFunc 10 "This is a very long string" = .ok "This is..." := by
  refine ⟨fun n text h => ?_, fun n text h1 h2 => ⟨?_, ?_, ?_⟩,
    fun n text h1 h2 h3 => ?_, by decide⟩
  · simp only [truncateFunc]
    rw [if_pos h]
  · simp only [truncateFunc]
    rw [if_neg (by omega), if_neg (by omega)]
  · show (String.mk (text.data.take (n - 3).toNat) ++ "...").length = n.toNat
    have hlen : text.length = text.data.length := rfl
    rw [String.length_append, String.length_mk, List.length_take]
    have h1' : n < (text.data.length : Int) := by rw [← hlen]; exact h1
    show min (n - 3).toNat text.data.length + "...".length = n.toNat
    have h3 : "...".length = 3 := rfl
    omega
  · show goEndsWith (String.mk (text.data.take (n - 3).toNat) ++ "...") "..." = true
    simp only [goEndsWith, String.data_append, List.reverse_append]
    rw [List.isPrefixOf_iff_prefix]
    exact List.prefix_append _ _
  · simp only [truncateFunc]
    rw [if_neg (by omega), if_pos (by omega), if_pos h2]

/-- C8 witness: the three amended truncation regimes at concrete inputs —
a short text kept whole, the documented 10-character example, and a small
non-negative hard cut. -/
theorem c8_truncate_witness :
    truncateFunc 5 "abc" = .ok "abc" ∧
    truncateFunc 10 "This is a very long string" = .ok "This is..." ∧
    truncateFunc 2 "abcdef" = .ok "ab" := by
  refine ⟨c8_truncate_spec.1 5 "abc" (by decide), ?_, ?_⟩
  · exact ((c8_truncate_spec.2.1 10 "This is a very long string"
      (by decide) (by decide)).1).trans (by decide)
  · exact (c8_truncate_spec.2.2.1 2 "abcdef"
      (by decide) (by decide) (by decide)).trans (by decide)

/-- C2: discovery does not strip the reserved ".default" marker. On a
filesystem holding `pre/name.default.md` and `pre/foo.default.bar.md`, the
unmarked names "name" and "foo.bar" fail discovery with a not-found error,
while the marked names resolve; yet the selection UI (`findTemplates`)
lists exactly the unmarked display names. -/
theorem c2_unmarked_name_fails_discovery :
    discoverTemplate fsDefaultMarked "/p" "name" = .error "template not found: name" ∧
    discoverTemplate fsDefaultMarked "/p" "foo.bar" = .error "template not found: foo.bar" ∧
    discoverTemplate fsDefaultMarked "/p" "name.default" = .ok "/p/pre/name.default.md" ∧
    discoverTemplate fsDefaultMarked "/p" "foo.default.bar" = .ok "/p/pre/foo.default.bar.md" ∧
    findTemplates fsDefaultMarked "/p" "pre" = ["name", "foo.bar"] := by
  refine ⟨by decide, by decide, by decide, by decide, by decide⟩

/-- C4: fix-mode assembly with an explicit fix file whose trimmed content is
`"$ go test ./...\n\nFAIL"` and no `fix.md` at the templates root yields
exactly the default opener, a blank-line separator, and the trimmed
content; the result does not involve the positional base prompt (the
request's base prompt is universally quantified here and never read). -/
theorem c4_fix_mode_default_opener (fs : GoFS) (r : RerunOutcome)
    (request : PromptRequest) (cfg : Config) (c : String)
    (hfile : request.fixFile ≠ "")
    (hread : readFile fs request.fixFile = some c)
    (htrim : goTrimSpace c = "$ go test ./...\n\nFAIL")
    (hnofix : readFile fs (joinPath cfg.promptsLocation "fix.md") = none) :
    generateFixModePrompt fs r request cfg =
      .ok "Please fix\n\n$ go test ./...\n\nFAIL" := by
  unfold generateFixModePrompt loadFixContent loadFixPrompt
  rw [if_pos hfile, hread]
  simp only [htrim, hnofix]
  rw [if_neg (by decide)]
  rfl

/-- C4 witness: the concrete scenario on the capture-file fixture. -/
theorem c4_fix_mode_witness :
    generateFixModePrompt fsFixCapture rerunNone
      { fixMode := true, fixFile := "/tmp/fix.txt" } cfgRootP =
      .ok "Please fix\n\n$ go test ./...\n\nFAIL" := by
  exact c4_fix_mode_default_opener fsFixCapture rerunNone
    { fixMode := true, fixFile := "/tmp/fix.txt" } cfgRootP
    "$ go test ./...\n\nFAIL\n" (by decide) (by decide) (by decide) (by decide)

/-- C9: with both the request target and the config target empty, the
request passes validation and `OutputPrompt` silently defaults the target
to stdout, writing the prompt there. -/
theorem c9_empty_target_defaults_to_stdout (h : OutputHandlerM)
    (env : List (String × String)) (binExists : String → Bool)
    (prompt : String) (fs : GoFS) (request : PromptRequest) (cfg : Config)
    (ht : request.target = "") (hct : cfg.target = "")
    (hed : request.editorRequested = false)
    (hout : h.stdoutResult = .ok ())
    (hint : request.interactive = true)
    (hcp : request.configPath = "")
    (hpre : request.preTemplate = "")
    (hpost : request.postTemplate = "") :
    validateRequest fs request = none ∧
    outputPrompt h env binExists prompt request cfg = .ok [.stdout prompt] := by
  constructor
  · simp [validateRequest, ht, hint, hcp, hpre, hpost]
  · simp [outputPrompt, ht, hct, hout, editorStep, hed]

/-- C9 witness: a concrete interactive request with empty targets passes
validation and is written to stdout. -/
theorem c9_witness :
    validateRequest { files := [], dirs := [] } { interactive := true } = none ∧
    outputPrompt
      { clipboardResult := .ok (), stdoutResult := .ok (),
        fileResult := .ok (), editorResult := .ok () }
      [] (fun _ => false) "P" { interactive := true } {} = .ok [.stdout "P"] := by
  exact c9_empty_target_defaults_to_stdout
    { clipboardResult := .ok (), stdoutResult := .ok (),
      fileResult := .ok (), editorResult := .ok () }
    [] (fun _ => false) "P" { files := [], dirs := [] } { interactive := true } {}
    rfl rfl rfl rfl rfl rfl rfl rfl

/-- C5: a failed clipboard write is recovered — a warning is emitted and the
prompt is written to stdout and the run succeeds — while a failed stdout
write and a failed `file:` write are returned as fatal errors with no
fallback write. -/
theorem c5_clipboard_fallback_only :
    (∀ (h : OutputHandlerM) (env : List (String × String))
      (binExists : String → Bool) (prompt : String)
      (request : PromptRequest) (cfg : Config) (err : GoErr),
      request.target = "clipboard" →
      h.clipboardResult = .error err →
      h.stdoutResult = .ok () →
      outputPrompt h env binExists prompt request cfg =
        .ok [.warn ("Warning: " ++ pErrString (newOutputError "clipboard" err) ++
              "\nFalling back to stdout:\n\n"),
             .stdout prompt]) ∧
    (∀ (h : OutputHandlerM) (env : List (String × String))
      (binExists : String → Bool) (prompt : String)
      (request : PromptRequest) (cfg : Config) (err : GoErr),
      request.target = "stdout" →
      h.stdoutResult = .error err →
      outputPrompt h env binExists prompt request cfg =
        .error (.perr (recoverFromError (newOutputError "stdout" err)))) ∧
    (∀ (h : OutputHandlerM) (env : List (String × String))
      (binExists : String → Bool) (prompt : String)
      (request : PromptRequest) (cfg : Config) (err : GoErr),
      request.target ≠ "" →
      goStarts request.target "file:" = true →
      request.target ≠ "clipboard" →
      request.target ≠ "stdout" →
      h.fileResult = .error err →
      outputPrompt h env binExists prompt request cfg =
        .error (.perr (recoverFromError (newOutputError request.target err)))) := by
  refine ⟨fun h env bx prompt request cfg err ht hc hs => ?_,
    fun h env bx prompt request cfg err ht hs => ?_,
    fun h env bx prompt request cfg err ht0 ht1 ht2 ht3 hf => ?_⟩
  · have hrec : isRecoverableError (newOutputError "clipboard" err) = true := rfl
    simp [outputPrompt, ht, hc, hs, hrec]
  · simp [outputPrompt, ht, hs]
  · simp [outputPrompt, ht0, ht1, ht2, ht3, hf]

/-- C5 witness: the three behaviours at concrete handlers on a failing
clipboard, a failing stdout, and a failing file sink. -/
theorem c5_witness :
    outputPrompt
      { clipboardResult := .error "no clipboard utilities available",
        stdoutResult := .ok (), fileResult := .ok (), editorResult := .ok () }
      [] (fun _ => false) "P" { target := "clipboard" } {} =
      .ok [.warn ("Warning: " ++
              pErrString (newOutputError "clipboard" "no clipboard utilities available") ++
              "\nFalling back to stdout:\n\n"),
           .stdout "P"] ∧
    outputPrompt
      { clipboardResult := .ok (), stdoutResult := .error "broken pipe",
        fileResult := .ok (), editorResult := .ok () }
      [] (fun _ => false) "P" { target := "stdout" } {} =
      .error (.perr (recoverFromError (newOutputError "stdout" "broken pipe"))) ∧
    outputPrompt
      { clipboardResult := .ok (), stdoutResult := .ok (),
        fileResult := .error "permission denied", editorResult := .ok () }
      [] (fun _ => false) "P" { target := "file:/etc/out.txt" } {} =
      .error (.perr (recoverFromError (newOutputError "file:/etc/out.txt"
        "permission denied"))) := by
  refine ⟨?_, ?_, ?_⟩
  · exact c5_clipboard_fallback_only.1 _ [] (fun _ => false) "P"
      { target := "clipboard" } {} "no clipboard utilities available" rfl rfl rfl
  · exact c5_clipboard_fallback_only.2.1 _ [] (fun _ => false) "P"
      { target := "stdout" } {} "broken pipe" rfl rfl
  · exact c5_clipboard_fallback_only.2.2 _ [] (fun _ => false) "P"
      { target := "file:/etc/out.txt" } {} "permission denied"
      (by decide) (by decide) (by decide) (by decide) rfl

/-- C1: contrary to the claim, a named pre-template that fails discovery is
fatal. `NewTemplateError` always carries the `ErrTemplateInvalid` sentinel,
which `IsRecoverableError` never accepts, so the warn-and-continue branch
of `generateNormalPrompt` is unreachable and the call returns an error
instead of a prompt containing the base prompt. -/
theorem c1_missing_template_is_fatal :
    (∀ (n c : String), isRecoverableError (newTemplateError n c) = false) ∧
    (∀ (fs : GoFS) (r : RerunOutcome) (env : List (String × String))
      (cwd : String) (now : GoTime) (hout : String → String)
      (request : PromptRequest) (cfg : Config)
      (msg : GoErr),
      request.preTemplate ≠ "" →
      goIsAbs request.preTemplate = false →
      goContains request.preTemplate "/" = false →
      discoverTemplate fs cfg.promptsLocation request.preTemplate = .error msg →
      generateNormalPrompt fs r env cwd now hout request cfg =
        .error (recoverFromError (newTemplateError request.preTemplate
          ("failed to load template " ++ request.preTemplate ++ ": " ++ msg)))) := by
  constructor
  · exact fun n c => rfl
  · intro fs r env cwd now hout request cfg msg hname habs hsl hdisc
    have hrec : ∀ (n c : String), isRecoverableError (newTemplateError n c) = false :=
      fun _ _ => rfl
    simp [generateNormalPrompt, templatePart, processTemplate, loadTemplate,
      hname, habs, hsl, hdisc, hrec]

/-- C1 witness: on an empty filesystem, requesting the absent pre-template
"missing" alongside the base prompt "hello" makes prompt generation fail. -/
theorem c1_witness :
    generateNormalPrompt { files := [], dirs := [] } rerunNone [] "/w" 0 (fun _ => "")
      { basePrompt := "hello", preTemplate := "missing" } cfgRootP =
      .error (recoverFromError (newTemplateError "missing"
        ("failed to load template missing: template not found: missing"))) := by
  exact c1_missing_template_is_fatal.2 { files := [], dirs := [] } rerunNone [] "/w" 0
    (fun _ => "") { basePrompt := "hello", preTemplate := "missing" } cfgRootP
    "template not found: missing" (by decide) (by decide) (by decide) (by decide)

/-- C10: discovery always scans `pre/` before `post/` and the requested
template kind is never consulted: `processTemplate` gives identical results
for the "pre" and "post" kinds, a name matching in the `pre/` listing
resolves to the `pre/` path no matter what `post/` holds, and a
post-template request whose name matches a `pre/` file renders that `pre/`
file's parsed body. -/
theorem c10_pre_scanned_before_post :
    (∀ (fs : GoFS) (r : RerunOutcome) (env : List (String × String))
      (cwd : String) (now : GoTime) (hout : String → String) (name : String)
      (request : PromptRequest) (cfg : Config),
      processTemplate fs r env cwd now hout name request cfg "pre" =
        processTemplate fs r env cwd now hout name request cfg "post") ∧
    (∀ (fs : GoFS) (loc name : String) (entries : List DirEntry) (fname : String),
      readDir fs (joinPath loc "pre") = some entries →
      findInDir entries name = some fname →
      discoverTemplate fs loc name = .ok (joinPath (joinPath loc "pre") fname)) ∧
    (∀ (fs : GoFS) (r : RerunOutcome) (env : List (String × String))
      (cwd : String) (now : GoTime) (hout : String → String) (name : String)
      (request : PromptRequest) (cfg : Config)
      (entries : List DirEntry) (fname : String) (tt : TmplText) (t : Tmpl),
      goIsAbs name = false →
      goContains name "/" = false →
      readDir fs (joinPath cfg.promptsLocation "pre") = some entries →
      findInDir entries name = some fname →
      fs.files.lookup (joinPath (joinPath cfg.promptsLocation "pre") fname) = some tt →
      tt.parsed = .ok t →
      processTemplate fs r env cwd now hout name request cfg "post" =
        .ok (execTmpl hout t (buildTemplateData fs r env cwd now request cfg))) := by
  refine ⟨fun _ _ _ _ _ _ _ _ _ => rfl, ?_, ?_⟩
  · intro fs loc name entries fname hdir hfind
    simp [discoverTemplate, discoverInDir, hdir, hfind]
  · intro fs r env cwd now hout name request cfg entries fname tt t habs hsl hdir hfind hlk hp
    simp [processTemplate, loadTemplate, loadTemplateFromPath, discoverTemplate,
      discoverInDir, habs, hsl, hdir, hfind, hlk, hp, goExecute]

/-- C10 witness: with `foo.md` present in both `pre/` and `post/`, a
post-template request for "foo" renders the `pre/` file's content. -/
theorem c10_witness :
    processTemplate fsBothKinds rerunNone [] "/w" 0 (fun _ => "") "foo" {} cfgRootP "post" =
      .ok "PRE" := by
  exact c10_pre_scanned_before_post.2.2 fsBothKinds rerunNone [] "/w" 0 (fun _ => "") "foo"
    {} cfgRootP [{ name := "foo.md", isDir := false }] "foo.md"
    { raw := "PRE", parsed := .ok (.lit "PRE") } (.lit "PRE")
    (by decide) (by decide) (by decide) (by decide) (by decide) (by decide)

/-- C3: configuration precedence. For any of the seven managed keys, a
non-empty flag override wins over whatever the environment and the config
file hold; a key present only in the config file resolves to the file's
value; and with no overrides, environment or file values, each key resolves
to its built-in default (the two path-valued keys pass through `~`-to-home
expansion, which leaves `/tmp/prompter-fix.txt` unchanged and expands
`~/.config/prompter` against the user's home directory, exactly as the
resolver stores them). -/
theorem c3_config_precedence :
    (∀ (home : Option String) (file envv flags : List (String × String)) (k v : String),
      k ∈ configKeys → flags.lookup k = some v → v ≠ "" →
      configField (resolve home (mkManager file envv flags)) k = keyTransform home k v) ∧
    (∀ (home : Option String) (file : List (String × String)) (k v : String),
      k ∈ configKeys → file.lookup k = some v →
      configField (resolve home (mkManager file [] [])) k = keyTransform home k v) ∧
    (∀ (home : Option String),
      resolve home (mkManager [] [] []) =
        { promptsLocation := expandPath home "~/.config/prompter",
          localPromptsLocation := "",
          editor := "nvim",
          defaultPre := "",
          defaultPost := "",
          fixFile := "/tmp/prompter-fix.txt",
          directoryStrategy := "git",
          target := "clipboard",
          interactiveDefault := false }) := by
  refine ⟨?_, ?_, ?_⟩
  · intro home file envv flags k v hk hlk hv
    simp only [configKeys, List.mem_cons, List.not_mem_nil, or_false] at hk
    rcases hk with rfl | rfl | rfl | rfl | rfl | rfl | rfl <;>
      simp [resolve, mkManager, applyFlagOverrides, flagStr, flagPath,
        configField, keyTransform, hlk, hv]
  · intro home file k v hk hlk
    simp only [configKeys, List.mem_cons, List.not_mem_nil, or_false] at hk
    rcases hk with rfl | rfl | rfl | rfl | rfl | rfl | rfl <;>
      simp [resolve, mkManager, applyFlagOverrides, flagStr, flagPath,
        configField, keyTransform, getConfigFromViper, getString, getStringCF, hlk]
  · intro home
    have hfix : expandPath home "/tmp/prompter-fix.txt" = "/tmp/prompter-fix.txt" := by
      simp only [expandPath]
      rw [if_neg (by decide)]
    simp [resolve, mkManager, applyFlagOverrides, flagStr, flagPath,
      getConfigFromViper, getString, getStringCF, stdDefaults, List.lookup, hfix]

/-- C3 witness: the three precedence cases at concrete stores — a flag
beats the file, a file-only key is used, and the empty store yields the
built-in defaults. -/
theorem c3_witness :
    configField (resolve none (mkManager [("editor", "nano")] [("editor", "emacs")]
      [("editor", "vim")])) "editor" = "vim" ∧
    configField (resolve none (mkManager [("target", "stdout")] [] [])) "target" = "stdout" ∧
    resolve none (mkManager [] [] []) =
      { promptsLocation := expandPath none "~/.config/prompter",
        localPromptsLocation := "",
        editor := "nvim",
        defaultPre := "",
        defaultPost := "",
        fixFile := "/tmp/prompter-fix.txt",
        directoryStrategy := "git",
        target := "clipboard",
        interactiveDefault := false } := by
  refine ⟨?_, ?_, c3_config_precedence.2.2 none⟩
  · have h := c3_config_precedence.1 none [("editor", "nano")] [("editor", "emacs")]
      [("editor", "vim")] "editor" "vim" (by decide) (by decide) (by decide)
    exact h.trans (by decide)
  · have h := c3_config_precedence.2.1 none [("target", "stdout")] "target" "stdout"
      (by decide) (by decide)
    exact h.trans (by decide)

/-- Helper: a successful association-list lookup yields a member pair. -/
theorem lookup_mem {β : Type} {l : List (String × β)} {k : String} {v : β}
    (h : l.lookup k = some v) : (k, v) ∈ l := by
  induction l with
  | nil => simp [List.lookup] at h
  | cons hd tl ih =>
    obtain ⟨a, b⟩ := hd
    by_cases hka : k = a
    · subst hka
      simp [List.lookup] at h
      simp [h]
    · have hb : (k == a) = false := beq_false_of_ne hka
      simp [List.lookup, hb] at h
      exact List.mem_cons_of_mem _ (ih h)

/-- Helper: template execution ignores both the clock and the per-call
helper outcomes when the body neither references the `.Now` field nor
invokes a per-call varying helper (only the prompt and working-directory
fields need to agree between the two contexts). -/
theorem execTmpl_percall_indep (t : Tmpl) (hout1 hout2 : String → String)
    (d d' : TemplateData)
    (hp : d.prompt = d'.prompt) (hc : d.cwd = d'.cwd)
    (hn : mentionsNow t = false) (hh : usesPerCallHelper t = false) :
    execTmpl hout1 t d = execTmpl hout2 t d' := by
  induction t with
  | lit s => rfl
  | promptField => exact hp
  | nowField => simp [mentionsNow] at hn
  | cwdField => exact hc
  | seq a b iha ihb =>
    simp only [mentionsNow, Bool.or_eq_false_iff] at hn
    simp only [usesPerCallHelper, Bool.or_eq_false_iff] at hh
    simp only [execTmpl, iha hn.1 hh.1, ihb hn.2 hh.2]
  | sprigRand name => simp [usesPerCallHelper] at hh

/-- Helper: a template loaded from a path comes from a stored file whose
parse result is that template. -/
theorem loadTemplateFromPath_ok {fs : GoFS} {path : String} {t : Tmpl}
    (h : loadTemplateFromPath fs path = .ok t) :
    ∃ tt, fs.files.lookup path = some tt ∧ tt.parsed = .ok t := by
  unfold loadTemplateFromPath at h
  split at h
  · cases h
  · split at h
    · cases h
    · cases h
      exact ⟨_, by assumption, by assumption⟩

/-- Helper: any successfully loaded template is the parse result of some
stored file. -/
theorem loadTemplate_ok {fs : GoFS} {loc n : String} {t : Tmpl}
    (h : loadTemplate fs loc n = .ok t) :
    ∃ p tt, fs.files.lookup p = some tt ∧ tt.parsed = .ok t := by
  unfold loadTemplate at h
  split at h
  · exact ⟨n, loadTemplateFromPath_ok h⟩
  · split at h
    · cases h
    · exact ⟨_, loadTemplateFromPath_ok h⟩

/-- Helper: `processTemplate` ignores the clock and the per-call helper
outcomes when every stored file is free of per-call inputs. -/
theorem processTemplate_percall_indep (fs : GoFS) (r : RerunOutcome)
    (env : List (String × String)) (cwd : String) (now1 now2 : GoTime)
    (hout1 hout2 : String → String)
    (name : String) (request : PromptRequest) (cfg : Config) (ty : String)
    (hfs : ∀ p tt, (p, tt) ∈ fs.files → ttPerCallFree tt = true) :
    processTemplate fs r env cwd now1 hout1 name request cfg ty =
      processTemplate fs r env cwd now2 hout2 name request cfg ty := by
  unfold processTemplate
  cases hl : loadTemplate fs cfg.promptsLocation name with
  | error e => rfl
  | ok t =>
    obtain ⟨p, tt, hlk, hp⟩ := loadTemplate_ok hl
    have hfree := hfs p tt (lookup_mem hlk)
    rw [ttPerCallFree, hp] at hfree
    rw [Bool.and_eq_true] at hfree
    simp only [goExecute]
    have hexec := execTmpl_percall_indep t hout1 hout2
      (buildTemplateData fs r env cwd now1 request cfg)
      (buildTemplateData fs r env cwd now2 request cfg)
      rfl rfl (by simpa using hfree.1) (by simpa using hfree.2)
    rw [hexec]

/-- Helper: one pre/post assembly block ignores the clock and the per-call
helper outcomes when every stored file is free of per-call inputs. -/
theorem templatePart_percall_indep (fs : GoFS) (r : RerunOutcome)
    (env : List (String × String)) (cwd : String) (now1 now2 : GoTime)
    (hout1 hout2 : String → String)
    (name : String) (request : PromptRequest) (cfg : Config) (ty : String)
    (hfs : ∀ p tt, (p, tt) ∈ fs.files → ttPerCallFree tt = true) :
    templatePart fs r env cwd now1 hout1 name request cfg ty =
      templatePart fs r env cwd now2 hout2 name request cfg ty := by
  unfold templatePart
  by_cases hn : name = ""
  · rw [if_pos hn, if_pos hn]
  · rw [if_neg hn, if_neg hn,
      processTemplate_percall_indep fs r env cwd now1 now2 hout1 hout2
        name request cfg ty hfs]

/-- C7 counterexample: two assembly calls at otherwise identical inputs
(fixed request, config, filesystem, environment and working directory)
produce different bytes, once for a pre-template rendering the timestamp
field at two distinct clock readings, and once for a pre-template calling
sprig's `uuidv4` at the same clock reading but different helper draws — so
the claim's unconditional byte-identity fails. -/
theorem c7_clock_breaks_idempotence :
    generateNormalPrompt fsNowTemplate rerunNone [] "/w" 0 (fun _ => "") reqPreT cfgRootP ≠
      generateNormalPrompt fsNowTemplate rerunNone [] "/w" 1 (fun _ => "") reqPreT cfgRootP ∧
    generateNormalPrompt fsUuidTemplate rerunNone [] "/w" 0
        (fun _ => "52fdfc07-2182-454f-963f-5f0f9a621d72") reqPreU cfgRootP ≠
      generateNormalPrompt fsUuidTemplate rerunNone [] "/w" 0
        (fun _ => "9566c74d-1003-4c4d-bbbb-0407d1e2c649") reqPreU cfgRootP := by
  exact ⟨by decide, by decide⟩

/-- C7 amended: normal-mode assembly is a deterministic function of the
request, config, filesystem, environment, working directory, clock reading
and the outcomes of the per-call varying registered helpers; with no
filesystem changes, repeated calls are byte-identical whenever the stored
templates neither reference the `.Now` timestamp field nor invoke a
per-call varying helper (in particular whenever the clock readings and
helper draws coincide). -/
theorem c7_assembly_deterministic_without_percall_inputs (fs : GoFS) (r : RerunOutcome)
    (env : List (String × String)) (cwd : String)
    (request : PromptRequest) (cfg : Config) (now1 now2 : GoTime)
    (hout1 hout2 : String → String)
    (hfs : ∀ p tt, (p, tt) ∈ fs.files → ttPerCallFree tt = true) :
    generateNormalPrompt fs r env cwd now1 hout1 request cfg =
      generateNormalPrompt fs r env cwd now2 hout2 request cfg := by
  unfold generateNormalPrompt
  rw [templatePart_percall_indep fs r env cwd now1 now2 hout1 hout2
      request.preTemplate request cfg "pre" hfs,
    templatePart_percall_indep fs r env cwd now1 now2 hout1 hout2
      request.postTemplate request cfg "post" hfs]

/-- C7 witness: on a filesystem whose only template is a clock-free and
helper-free literal, assembly at clock readings 5 and 9 and different
helper draws agrees. -/
theorem c7_witness :
    generateNormalPrompt fsLitTemplate rerunNone [] "/w" 5 (fun _ => "A") reqPreT cfgRootP =
      generateNormalPrompt fsLitTemplate rerunNone [] "/w" 9 (fun _ => "B") reqPreT cfgRootP := by
  apply c7_assembly_deterministic_without_percall_inputs
  intro p tt hm
  simp only [fsLitTemplate, List.mem_cons, List.not_mem_nil, or_false] at hm
  cases hm
  decide

end Prompter
